import Mathlib

/-!
Shallow embedding of the `auth` package of the sso service
(`internal/services/auth/auth.go`, the `Auth` service with operations
`Login`, `RegisterNewUser` and `IsAdmin`), together with models of the
collaborator packages the service consumes (`internal/storage` sentinel
errors, `internal/domain/models`, `internal/lib/jwt`, and the external
`bcrypt` library interface), faithful to the Go source.  Go errors are
modelled with explicit wrapping (`fmt.Errorf("%s: %w", op, err)`), the
cancellation context as an explicit value, and every call the service
makes into a collaborator is recorded in a trace so call order, call
count and the context argument passed to each call are provable facts.
-/

namespace SSO

/-- Model of Go's `context.Context` as far as the auth core observes it:
an opaque value carrying a cancellation flag, passed by the caller and
handed on (or not) to each collaborator call. -/
structure Ctx where
  cancelled : Bool
deriving DecidableEq, Repr

/-- Model of Go's `error` values as the auth core manipulates them:
sentinel errors declared by the storage package, wrapped errors produced
by `fmt.Errorf("%s: %w", op, err)`, and opaque backend errors. -/
inductive GoErr where
  | sentinel (msg : String)
  | wrap (op : String) (cause : GoErr)
  | plain (msg : String)
deriving DecidableEq, Repr

/-- Model of Go's `errors.Is`: equality with the target, unwrapping
`%w`-wrapped causes. -/
def GoErr.is (e target : GoErr) : Bool :=
  match e with
  | .wrap op cause => (GoErr.wrap op cause == target) || cause.is target
  | e' => e' == target

/-- Modelled from the spec: sentinel error of the missing
`internal/storage` package, "user not found" (`storage.ErrUserNotFound`). -/
def ErrUserNotFound : GoErr := .sentinel "user not found"

/-- Modelled from the spec: sentinel error of the missing
`internal/storage` package, the uniform credentials error
(`storage.ErrInvalidCredentials`). -/
def ErrInvalidCredentials : GoErr := .sentinel "invalid credentials"

/-- Modelled from the spec: sentinel error of the missing
`internal/storage` package, "app not found" (`storage.ErrAppNotFound`). -/
def ErrAppNotFound : GoErr := .sentinel "app not found"

/-- Modelled from the spec: sentinel error of the missing
`internal/storage` package, the duplicate-registration error
(`storage.ErrUserAlreadyExists`). -/
def ErrUserAlreadyExists : GoErr := .sentinel "user already exists"

/-- Modelled from the spec: the caller-visible error taxonomy of §7 —
`InvalidCredentials`, `DuplicateUser`, and `Internal` for everything
else. -/
inductive ErrKind where
  | invalidCredentials
  | duplicateUser
  | internal
deriving DecidableEq, Repr

/-- Modelled from the spec: classification of a returned error into the
caller-visible taxonomy, by `errors.Is` against the two classified
sentinels; any unclassified backend or signing failure is `Internal`. -/
def errKind (e : GoErr) : ErrKind :=
  if e.is ErrInvalidCredentials then .invalidCredentials
  else if e.is ErrUserAlreadyExists then .duplicateUser
  else .internal

/-- Modelled from the spec: the `models.User` record of the missing
`internal/domain/models` package — numeric ID, email, password hash. -/
structure User where
  ID : Int
  Email : String
  PassHash : List Nat
deriving DecidableEq, Repr

/-- Modelled from the spec: the `models.App` record of the missing
`internal/domain/models` package — numeric ID, name, signing secret. -/
structure App where
  ID : Int
  Name : String
  Secret : String
deriving DecidableEq, Repr

/-- The `UserSaver` capability interface (source lines 24-26). -/
structure UserSaver where
  SaveUser : Ctx → String → List Nat → Except GoErr Int

/-- The `UserProvider` capability interface (source lines 28-31). -/
structure UserProvider where
  FindUser : Ctx → String → Except GoErr User
  CheckAdmin : Ctx → Int → Except GoErr Bool

/-- The `AppProvider` capability interface (source lines 33-35). -/
structure AppProvider where
  FindApp : Ctx → Int → Except GoErr App

/-- Model of the external `bcrypt` library interface as used by the
service: `CompareHashAndPassword` returns `none` on match and an error
on mismatch; `GenerateFromPassword` produces a salted hash or fails. -/
structure Bcrypt where
  CompareHashAndPassword : List Nat → String → Option GoErr
  GenerateFromPassword : String → Except GoErr (List Nat)

/-- The token signer interface: `jwt.NewToken(user, app, ttl)` of the
missing `internal/lib/jwt` package takes a user, an app and a TTL — and
no context — and returns a token string or a signing error. -/
structure Jwt where
  NewToken : User → App → Nat → Except GoErr String

/-- Modelled from the spec: the claims a signed token embeds — user ID,
user email, app ID, and expiration timestamp. -/
structure TokenClaims where
  uid : Int
  email : String
  appID : Int
  exp : Nat
deriving DecidableEq, Repr

/-- Modelled from the spec: a compact self-describing signed token
carrying the claims as distinguishable fields, signed with the app's
secret. -/
def encodeToken (c : TokenClaims) (secret : String) : String :=
  toString c.uid ++ "|" ++ c.email ++ "|" ++ toString c.appID ++ "|"
    ++ toString c.exp ++ "|" ++ secret

/-- Modelled from the spec: the missing `internal/lib/jwt` signer —
`NewToken(user, app, ttl)` builds a token binding the user and app with
expiration = current time + ttl, signed with the app's secret.  `now`
is the issuance time read from the clock. -/
def specJwt (now : Nat) : Jwt :=
  { NewToken := fun user app ttl =>
      .ok (encodeToken ⟨user.ID, user.Email, app.ID, now + ttl⟩ app.Secret) }

/-- The logger sink held by the service; the core only emits to it, so
it is modelled as an opaque tag. -/
structure Logger where
  tag : String
deriving DecidableEq, Repr

/-- The `Auth` service struct (source lines 16-22). -/
structure Auth where
  log : Logger
  userSaver : UserSaver
  userProvider : UserProvider
  appProvider : AppProvider
  tokenTTL : Nat

/-- The constructor `New` (source lines 38-46): constructs the service from its
injected dependencies. -/
def New (log : Logger) (userSaver : UserSaver) (userProvider : UserProvider)
    (appProvider : AppProvider) (tokenTTL : Nat) : Auth :=
  { userSaver := userSaver
    userProvider := userProvider
    appProvider := appProvider
    tokenTTL := tokenTTL
    log := log }

/-- The collaborator calls an operation can make, as recorded in the
trace. -/
inductive Callee where
  | userLookup
  | passCompare
  | appLookup
  | signToken
  | saveUser
  | passHash
  | adminCheck
deriving DecidableEq, Repr

/-- Returns `true` for the calls into the storage capabilities. -/
def Callee.isStorage : Callee → Bool
  | .userLookup => true
  | .appLookup => true
  | .saveUser => true
  | .adminCheck => true
  | _ => false

/-- Returns `true` for the call into the token signer. -/
def Callee.isSigning : Callee → Bool
  | .signToken => true
  | _ => false

/-- One collaborator call: which collaborator, and the context argument
passed to it (`none` when the call site passes no context). -/
structure CallEvent where
  callee : Callee
  ctxArg : Option Ctx
deriving DecidableEq, Repr

/-- Result of `Login`: the Go return tuple `(token string, err error)`,
the trace of collaborator calls the body made, and the receiver state
after the call. -/
structure LoginOut where
  token : String
  err : Option GoErr
  calls : List CallEvent
  state : Auth

/-- The operation `Login` (source lines 52-93).  Looks the user up by email, compares
the bcrypt hash, looks the app up, signs a token.  Every failure of the
first three steps returns `storage.ErrInvalidCredentials` wrapped with
the op name; a signing failure wraps the signer's error.  The context is
passed to the two storage lookups; the bcrypt comparison and
`jwt.NewToken` call sites take no context. -/
def Login (bcrypt : Bcrypt) (jwt : Jwt) (a : Auth) (ctx : Ctx)
    (email password : String) (appID : Int) : LoginOut :=
  -- const op = "auth.Login", inlined below
  match a.userProvider.FindUser ctx email with
  | .error _err =>
      -- if errors.Is(err, storage.ErrUserNotFound): log only
      { token := "", err := some (.wrap "auth.Login" ErrInvalidCredentials),
        calls := [⟨.userLookup, some ctx⟩], state := a }
  | .ok user =>
    match bcrypt.CompareHashAndPassword user.PassHash password with
    | some _err =>
        { token := "", err := some (.wrap "auth.Login" ErrInvalidCredentials),
          calls := [⟨.userLookup, some ctx⟩, ⟨.passCompare, none⟩],
          state := a }
    | none =>
      match a.appProvider.FindApp ctx appID with
      | .error _err =>
          -- if errors.Is(err, storage.ErrAppNotFound): log only
          { token := "", err := some (.wrap "auth.Login" ErrInvalidCredentials),
            calls := [⟨.userLookup, some ctx⟩, ⟨.passCompare, none⟩,
                      ⟨.appLookup, some ctx⟩],
            state := a }
      | .ok app =>
        match jwt.NewToken user app a.tokenTTL with
        | .error err =>
            { token := "", err := some (.wrap "auth.Login" err),
              calls := [⟨.userLookup, some ctx⟩, ⟨.passCompare, none⟩,
                        ⟨.appLookup, some ctx⟩, ⟨.signToken, none⟩],
              state := a }
        | .ok token =>
            { token := token, err := none,
              calls := [⟨.userLookup, some ctx⟩, ⟨.passCompare, none⟩,
                        ⟨.appLookup, some ctx⟩, ⟨.signToken, none⟩],
              state := a }

/-- Result of `RegisterNewUser`: Go return tuple `(int64, error)`, the
call trace, and the receiver state after the call. -/
structure RegisterOut where
  uid : Int
  err : Option GoErr
  calls : List CallEvent
  state : Auth

/-- The operation `RegisterNewUser` (source lines 99-123).  Hashes the password with
bcrypt, persists via `SaveUser` (with the caller's context), and wraps
any failure with the op name. -/
def RegisterNewUser (bcrypt : Bcrypt) (a : Auth) (ctx : Ctx)
    (email password : String) : RegisterOut :=
  -- const op = "auth.RegisterNewUser", inlined below
  match bcrypt.GenerateFromPassword password with
  | .error err =>
      { uid := 0, err := some (.wrap "auth.RegisterNewUser" err),
        calls := [⟨.passHash, none⟩], state := a }
  | .ok passHash =>
    match a.userSaver.SaveUser ctx email passHash with
    | .error err =>
        { uid := 0, err := some (.wrap "auth.RegisterNewUser" err),
          calls := [⟨.passHash, none⟩, ⟨.saveUser, some ctx⟩], state := a }
    | .ok id =>
        { uid := id, err := none,
          calls := [⟨.passHash, none⟩, ⟨.saveUser, some ctx⟩], state := a }

/-- Result of `IsAdmin`: Go return tuple `(bool, error)`, the call
trace, and the receiver state after the call. -/
structure IsAdminOut where
  isAdmin : Bool
  err : Option GoErr
  calls : List CallEvent
  state : Auth

/-- The operation `IsAdmin` (source lines 129-146).  Delegates to the admin-check
capability with the caller's context and wraps any failure with the op
name. -/
def IsAdmin (a : Auth) (ctx : Ctx) (userID : Int) : IsAdminOut :=
  -- const op = "auth.IsAdmin", inlined below
  match a.userProvider.CheckAdmin ctx userID with
  | .error err =>
      { isAdmin := false, err := some (.wrap "auth.IsAdmin" err),
        calls := [⟨.adminCheck, some ctx⟩], state := a }
  | .ok isAdmin =>
      { isAdmin := isAdmin, err := none,
        calls := [⟨.adminCheck, some ctx⟩], state := a }

/-! ### Concrete fixtures

An in-memory instantiation of the capability interfaces, used to
exercise the operations on concrete inputs. -/

/-- A deterministic stand-in for a salted bcrypt digest: tagged so a
hash is never the plaintext bytes. -/
def hashOf (p : String) : List Nat :=
  99 :: p.data.map Char.toNat

/-- Fixture bcrypt: compare succeeds exactly when the hash is the digest
of the password. -/
def bcrypt0 : Bcrypt :=
  { CompareHashAndPassword := fun h p =>
      if h = hashOf p then none else some (.plain "bcrypt: mismatch")
    GenerateFromPassword := fun p => .ok (hashOf p) }

/-- Fixture registered user. -/
def user0 : User := ⟨1, "alice@example.com", hashOf "s3cret"⟩

/-- Fixture app record. -/
def app0 : App := ⟨10, "test-app", "app-secret"⟩

/-- Fixture logger. -/
def logger0 : Logger := ⟨"test"⟩

/-- Fixture context, not cancelled. -/
def ctx0 : Ctx := ⟨false⟩

/-- Fixture context, cancelled. -/
def ctxCancelled : Ctx := ⟨true⟩

/-- Fixture user provider: knows exactly `user0`; user 1 is an admin,
the admin check on any other ID hits a backend failure. -/
def provider0 : UserProvider :=
  { FindUser := fun _ email =>
      if email = "alice@example.com" then .ok user0 else .error ErrUserNotFound
    CheckAdmin := fun _ uid =>
      if uid = 1 then .ok true else .error (.plain "storage: query failed") }

/-- Fixture app provider: knows exactly `app0`. -/
def appProvider0 : AppProvider :=
  { FindApp := fun _ appID =>
      if appID = 10 then .ok app0 else .error ErrAppNotFound }

/-- Fixture user saver in the state after `user0` has been registered:
saving the same email again reports a duplicate. -/
def saver0 : UserSaver :=
  { SaveUser := fun _ email _ =>
      if email = "alice@example.com" then .error ErrUserAlreadyExists else .ok 2 }

/-- Fixture service instance. -/
def auth0 : Auth := New logger0 saver0 provider0 appProvider0 3600

/-- Fixture user provider whose lookup fails with a backend error that
is not `ErrUserNotFound`. -/
def storageFailProvider : UserProvider :=
  { FindUser := fun _ _ => .error (.plain "storage: query failed")
    CheckAdmin := fun _ _ => .ok false }

/-- Fixture service instance whose user lookups hit a backend failure. -/
def authStorageFail : Auth := New logger0 saver0 storageFailProvider appProvider0 3600

/-! ### Theorems -/

/-- C1: when the user lookup fails with a backend failure that is not
`ErrUserNotFound`, `Login` nevertheless returns the
`ErrInvalidCredentials` error, whose caller-visible kind is
`InvalidCredentials` and not `Internal` — the code collapses storage
failures into the credentials error, against the spec and against the
method's own doc comment. -/
theorem login_storage_failure_returns_invalid_credentials :
    (GoErr.plain "storage: query failed").is ErrUserNotFound = false
    ∧ (Login bcrypt0 (specJwt 0) authStorageFail ctx0 "alice@example.com" "s3cret" 10).err
        = some (.wrap "auth.Login" ErrInvalidCredentials)
    ∧ ((Login bcrypt0 (specJwt 0) authStorageFail ctx0 "alice@example.com" "s3cret" 10).err.map errKind
        = some .invalidCredentials)
    ∧ ErrKind.invalidCredentials ≠ ErrKind.internal := by
  decide

/-- C2: for every registered user whose stored hash matches the supplied
password and every appID the app provider resolves, `Login` succeeds and
returns exactly the token the signer produces for that user, that app
and the configured TTL; with the spec's signer the token embeds
expiration = issuance time + TTL. -/
theorem login_success_returns_signed_token
    (bcrypt : Bcrypt) (jwt : Jwt) (a : Auth) (ctx : Ctx)
    (email password : String) (appID : Int) (u : User) (app : App)
    (tok : String) (now : Nat)
    (hu : a.userProvider.FindUser ctx email = .ok u)
    (hp : bcrypt.CompareHashAndPassword u.PassHash password = none)
    (ha : a.appProvider.FindApp ctx appID = .ok app)
    (hs : jwt.NewToken u app a.tokenTTL = .ok tok) :
    ((Login bcrypt jwt a ctx email password appID).err = none
      ∧ (Login bcrypt jwt a ctx email password appID).token = tok)
    ∧ (Login bcrypt (specJwt now) a ctx email password appID).token
        = encodeToken ⟨u.ID, u.Email, app.ID, now + a.tokenTTL⟩ app.Secret := by
  refine ⟨⟨?_, ?_⟩, ?_⟩ <;>
    simp only [Login, specJwt, hu, hp, ha, hs]

/-- C2 witness: the fixture login succeeds and returns the spec signer's
token for `user0`, `app0` and TTL 3600, issued at time 100. -/
theorem login_success_returns_signed_token_witness :
    ((Login bcrypt0 (specJwt 100) auth0 ctx0 "alice@example.com" "s3cret" 10).err = none
      ∧ (Login bcrypt0 (specJwt 100) auth0 ctx0 "alice@example.com" "s3cret" 10).token
        = encodeToken ⟨1, "alice@example.com", 10, 100 + 3600⟩ "app-secret")
    ∧ (Login bcrypt0 (specJwt 100) auth0 ctx0 "alice@example.com" "s3cret" 10).token
        = encodeToken ⟨user0.ID, user0.Email, app0.ID, 100 + auth0.tokenTTL⟩ app0.Secret :=
  login_success_returns_signed_token bcrypt0 (specJwt 100) auth0 ctx0
    "alice@example.com" "s3cret" 10 user0 app0
    (encodeToken ⟨1, "alice@example.com", 10, 100 + 3600⟩ "app-secret") 100
    rfl rfl rfl rfl

/-- C3: a wrong password for a registered user and a lookup failure for
an unknown email produce the very same wrapped `ErrInvalidCredentials`
error, of kind `InvalidCredentials` and never `Internal` — the two
failure causes are indistinguishable at the caller boundary. -/
theorem login_uniform_invalid_credentials
    (bcrypt : Bcrypt) (jwt : Jwt) (a : Auth) (ctx : Ctx)
    (email badEmail password anyPassword : String) (appID appID2 : Int)
    (u : User) (e e2 : GoErr)
    (hu : a.userProvider.FindUser ctx email = .ok u)
    (hp : bcrypt.CompareHashAndPassword u.PassHash password = some e)
    (hn : a.userProvider.FindUser ctx badEmail = .error e2) :
    (Login bcrypt jwt a ctx email password appID).err
        = some (.wrap "auth.Login" ErrInvalidCredentials)
    ∧ (Login bcrypt jwt a ctx badEmail anyPassword appID2).err
        = (Login bcrypt jwt a ctx email password appID).err
    ∧ ((Login bcrypt jwt a ctx email password appID).err.map errKind
        = some .invalidCredentials)
    ∧ ((Login bcrypt jwt a ctx email password appID).err.map errKind
        ≠ some .internal) := by
  refine ⟨?_, ?_, ?_, ?_⟩ <;> simp only [Login, hu, hp, hn] <;> decide

/-- C3 witness: on the fixtures, a wrong password for alice and a login
for unregistered bob return the identical `InvalidCredentials` error. -/
theorem login_uniform_invalid_credentials_witness :
    (Login bcrypt0 (specJwt 0) auth0 ctx0 "alice@example.com" "wrong" 10).err
        = some (.wrap "auth.Login" ErrInvalidCredentials)
    ∧ (Login bcrypt0 (specJwt 0) auth0 ctx0 "bob@example.com" "whatever" 10).err
        = (Login bcrypt0 (specJwt 0) auth0 ctx0 "alice@example.com" "wrong" 10).err
    ∧ ((Login bcrypt0 (specJwt 0) auth0 ctx0 "alice@example.com" "wrong" 10).err.map errKind
        = some .invalidCredentials)
    ∧ ((Login bcrypt0 (specJwt 0) auth0 ctx0 "alice@example.com" "wrong" 10).err.map errKind
        ≠ some .internal) :=
  login_uniform_invalid_credentials bcrypt0 (specJwt 0) auth0 ctx0
    "alice@example.com" "bob@example.com" "wrong" "whatever" 10 10
    user0 (.plain "bcrypt: mismatch") ErrUserNotFound rfl rfl rfl

/-- C4: a `SaveUser` failure is wrapped with the op name and propagated,
so `errors.Is` still detects `ErrUserAlreadyExists` through the wrap; a
duplicate registration therefore surfaces as the `DuplicateUser` kind. -/
theorem register_duplicate_detectable
    (bcrypt : Bcrypt) (a : Auth) (ctx : Ctx) (email password : String)
    (passHash : List Nat) (e : GoErr)
    (hg : bcrypt.GenerateFromPassword password = .ok passHash)
    (hs : a.userSaver.SaveUser ctx email passHash = .error e) :
    (RegisterNewUser bcrypt a ctx email password).err
        = some (.wrap "auth.RegisterNewUser" e)
    ∧ (GoErr.wrap "auth.RegisterNewUser" e).is ErrUserAlreadyExists
        = e.is ErrUserAlreadyExists
    ∧ (e = ErrUserAlreadyExists →
        (RegisterNewUser bcrypt a ctx email password).err.map errKind
          = some .duplicateUser) := by
  refine ⟨?_, rfl, ?_⟩
  · simp only [RegisterNewUser, hg, hs]
  · intro he
    subst he
    simp only [RegisterNewUser, hg, hs]
    decide

/-- C4 witness: registering alice's email a second time against the
post-registration saver state reports a detectable duplicate. -/
theorem register_duplicate_detectable_witness :
    (RegisterNewUser bcrypt0 auth0 ctx0 "alice@example.com" "s3cret").err
        = some (.wrap "auth.RegisterNewUser" ErrUserAlreadyExists)
    ∧ (GoErr.wrap "auth.RegisterNewUser" ErrUserAlreadyExists).is ErrUserAlreadyExists
        = ErrUserAlreadyExists.is ErrUserAlreadyExists
    ∧ (ErrUserAlreadyExists = ErrUserAlreadyExists →
        (RegisterNewUser bcrypt0 auth0 ctx0 "alice@example.com" "s3cret").err.map errKind
          = some .duplicateUser) :=
  register_duplicate_detectable bcrypt0 auth0 ctx0 "alice@example.com" "s3cret"
    (hashOf "s3cret") ErrUserAlreadyExists rfl rfl

/-- C5: for a registered user with the correct password, any app-lookup
failure — `ErrAppNotFound` or any other error — makes `Login` return the
`InvalidCredentials` kind, never `Internal`. -/
theorem login_app_failure_returns_invalid_credentials
    (bcrypt : Bcrypt) (jwt : Jwt) (a : Auth) (ctx : Ctx)
    (email password : String) (appID : Int) (u : User) (e : GoErr)
    (hu : a.userProvider.FindUser ctx email = .ok u)
    (hp : bcrypt.CompareHashAndPassword u.PassHash password = none)
    (ha : a.appProvider.FindApp ctx appID = .error e) :
    (Login bcrypt jwt a ctx email password appID).err
        = some (.wrap "auth.Login" ErrInvalidCredentials)
    ∧ ((Login bcrypt jwt a ctx email password appID).err.map errKind
        = some .invalidCredentials)
    ∧ ((Login bcrypt jwt a ctx email password appID).err.map errKind
        ≠ some .internal) := by
  refine ⟨?_, ?_, ?_⟩ <;> simp only [Login, hu, hp, ha] <;> decide

/-- C5 witness: alice with the correct password and an unknown appID 11
gets `InvalidCredentials`. -/
theorem login_app_failure_returns_invalid_credentials_witness :
    (Login bcrypt0 (specJwt 0) auth0 ctx0 "alice@example.com" "s3cret" 11).err
        = some (.wrap "auth.Login" ErrInvalidCredentials)
    ∧ ((Login bcrypt0 (specJwt 0) auth0 ctx0 "alice@example.com" "s3cret" 11).err.map errKind
        = some .invalidCredentials)
    ∧ ((Login bcrypt0 (specJwt 0) auth0 ctx0 "alice@example.com" "s3cret" 11).err.map errKind
        ≠ some .internal) :=
  login_app_failure_returns_invalid_credentials bcrypt0 (specJwt 0) auth0 ctx0
    "alice@example.com" "s3cret" 11 user0 ErrAppNotFound rfl rfl rfl

/-- Wrapping with an op name never hides a sentinel from `errors.Is`. -/
theorem goErrIs_wrap_sentinel (op : String) (e : GoErr) (s : String) :
    (GoErr.wrap op e).is (.sentinel s) = e.is (.sentinel s) := rfl

/-- Wrapping with an op name does not change the caller-visible kind. -/
theorem errKind_wrap (op : String) (e : GoErr) :
    errKind (.wrap op e) = errKind e := rfl

/-- C6: when the admin-check capability yields a boolean, `IsAdmin`
returns exactly that boolean and no error; when it fails, `IsAdmin`
returns the wrapped error, of `Internal` kind whenever the underlying
failure is not one of the two classified sentinels. -/
theorem isAdmin_delegates (a : Auth) (ctx : Ctx) (uid : Int) :
    (∀ b, a.userProvider.CheckAdmin ctx uid = .ok b →
        (IsAdmin a ctx uid).isAdmin = b ∧ (IsAdmin a ctx uid).err = none)
    ∧ (∀ e, a.userProvider.CheckAdmin ctx uid = .error e →
        (IsAdmin a ctx uid).isAdmin = false
        ∧ (IsAdmin a ctx uid).err = some (.wrap "auth.IsAdmin" e)
        ∧ (e.is ErrInvalidCredentials = false → e.is ErrUserAlreadyExists = false →
            (IsAdmin a ctx uid).err.map errKind = some .internal)) := by
  constructor
  · intro b hb
    refine ⟨?_, ?_⟩ <;> simp only [IsAdmin, hb]
  · intro e he
    refine ⟨?_, ?_, ?_⟩
    · simp only [IsAdmin, he]
    · simp only [IsAdmin, he]
    · intro h1 h2
      simp only [IsAdmin, he, Option.map, errKind_wrap]
      simp [errKind, h1, h2]

/-- C6 witness: the fixture provider marks user 1 an admin, and the
backend failure for user 2 surfaces as an `Internal`-kind error. -/
theorem isAdmin_delegates_witness :
    ((IsAdmin auth0 ctx0 1).isAdmin = true ∧ (IsAdmin auth0 ctx0 1).err = none)
    ∧ ((IsAdmin auth0 ctx0 2).err.map errKind = some .internal) :=
  ⟨(isAdmin_delegates auth0 ctx0 1).1 true rfl,
   ((isAdmin_delegates auth0 ctx0 2).2 (.plain "storage: query failed") rfl).2.2 rfl rfl⟩

/-- C7 counterexample: on a concrete login with a cancelled context, the
token-signing call is recorded with no context argument (`none`, not the
caller's context), and the operation completes successfully instead of
aborting — `jwt.NewToken(user, app, ttl)` takes no context at all. -/
theorem login_sign_call_without_context :
    (Login bcrypt0 (specJwt 100) auth0 ctxCancelled "alice@example.com" "s3cret" 10).calls
      = [⟨.userLookup, some ctxCancelled⟩, ⟨.passCompare, none⟩,
         ⟨.appLookup, some ctxCancelled⟩, ⟨.signToken, none⟩]
    ∧ Callee.isSigning .signToken = true
    ∧ (none : Option Ctx) ≠ some ctxCancelled
    ∧ (Login bcrypt0 (specJwt 100) auth0 ctxCancelled "alice@example.com" "s3cret" 10).err
        = none := by
  decide

/-- C7 amended: every storage-capability call made by `Login`,
`RegisterNewUser` and `IsAdmin` receives the caller's context unchanged,
but the token-signing call in `Login` takes no context, so cancellation
cannot reach the signing step. -/
theorem storage_calls_receive_context
    (bcrypt : Bcrypt) (jwt : Jwt) (a : Auth) (ctx : Ctx)
    (email password : String) (appID : Int) (uid : Int) :
    (∀ ev ∈ (Login bcrypt jwt a ctx email password appID).calls,
        (ev.callee.isStorage = true → ev.ctxArg = some ctx)
        ∧ (ev.callee.isSigning = true → ev.ctxArg = none))
    ∧ (∀ ev ∈ (RegisterNewUser bcrypt a ctx email password).calls,
        ev.callee.isStorage = true → ev.ctxArg = some ctx)
    ∧ (∀ ev ∈ (IsAdmin a ctx uid).calls,
        ev.callee.isStorage = true → ev.ctxArg = some ctx) := by
  refine ⟨?_, ?_, ?_⟩
  · unfold Login
    cases hu : a.userProvider.FindUser ctx email with
    | error e => simp [hu, Callee.isStorage, Callee.isSigning]
    | ok u =>
      cases hc : bcrypt.CompareHashAndPassword u.PassHash password with
      | some e => simp [hu, hc, Callee.isStorage, Callee.isSigning]
      | none =>
        cases ha : a.appProvider.FindApp ctx appID with
        | error e => simp [hu, hc, ha, Callee.isStorage, Callee.isSigning]
        | ok app =>
          cases hs : jwt.NewToken u app a.tokenTTL with
          | error e => simp [hu, hc, ha, hs, Callee.isStorage, Callee.isSigning]
          | ok tok => simp [hu, hc, ha, hs, Callee.isStorage, Callee.isSigning]
  · unfold RegisterNewUser
    cases hg : bcrypt.GenerateFromPassword password with
    | error e => simp [hg, Callee.isStorage]
    | ok passHash =>
      cases hsv : a.userSaver.SaveUser ctx email passHash with
      | error e => simp [hg, hsv, Callee.isStorage]
      | ok i => simp [hg, hsv, Callee.isStorage]
  · unfold IsAdmin
    cases hck : a.userProvider.CheckAdmin ctx uid with
    | error e => simp [hck, Callee.isStorage]
    | ok b => simp [hck, Callee.isStorage]

/-- C7 amended, witness: on the concrete successful login, the app
lookup (a storage call) carries the caller's context and the signing
call carries none. -/
theorem storage_calls_receive_context_witness :
    ((⟨.appLookup, some ctx0⟩ : CallEvent).ctxArg = some ctx0)
    ∧ ((⟨.signToken, none⟩ : CallEvent).ctxArg = none) :=
  ⟨((storage_calls_receive_context bcrypt0 (specJwt 100) auth0 ctx0
      "alice@example.com" "s3cret" 10 1).1
      ⟨.appLookup, some ctx0⟩ (by decide)).1 rfl,
   ((storage_calls_receive_context bcrypt0 (specJwt 100) auth0 ctx0
      "alice@example.com" "s3cret" 10 1).1
      ⟨.signToken, none⟩ (by decide)).2 rfl⟩

/-- C8: `Login` performs user lookup, password comparison, app lookup
and token signing in that fixed order, each at most once, and stops at
the first failing step — the trace of collaborator calls is exactly the
prefix up to and including the failing step. -/
theorem login_sequencing
    (bcrypt : Bcrypt) (jwt : Jwt) (a : Auth) (ctx : Ctx)
    (email password : String) (appID : Int) :
    (∀ e, a.userProvider.FindUser ctx email = .error e →
        (Login bcrypt jwt a ctx email password appID).calls
          = [⟨.userLookup, some ctx⟩])
    ∧ (∀ u e, a.userProvider.FindUser ctx email = .ok u →
        bcrypt.CompareHashAndPassword u.PassHash password = some e →
        (Login bcrypt jwt a ctx email password appID).calls
          = [⟨.userLookup, some ctx⟩, ⟨.passCompare, none⟩])
    ∧ (∀ u e, a.userProvider.FindUser ctx email = .ok u →
        bcrypt.CompareHashAndPassword u.PassHash password = none →
        a.appProvider.FindApp ctx appID = .error e →
        (Login bcrypt jwt a ctx email password appID).calls
          = [⟨.userLookup, some ctx⟩, ⟨.passCompare, none⟩,
             ⟨.appLookup, some ctx⟩])
    ∧ (∀ u app, a.userProvider.FindUser ctx email = .ok u →
        bcrypt.CompareHashAndPassword u.PassHash password = none →
        a.appProvider.FindApp ctx appID = .ok app →
        (Login bcrypt jwt a ctx email password appID).calls
          = [⟨.userLookup, some ctx⟩, ⟨.passCompare, none⟩,
             ⟨.appLookup, some ctx⟩, ⟨.signToken, none⟩]) := by
  refine ⟨?_, ?_, ?_, ?_⟩
  · intro e h
    simp only [Login, h]
  · intro u e h1 h2
    simp only [Login, h1, h2]
  · intro u e h1 h2 h3
    simp only [Login, h1, h2, h3]
  · intro u app h1 h2 h3
    simp only [Login, h1, h2, h3]
    cases jwt.NewToken u app a.tokenTTL with
    | error e => rfl
    | ok tok => rfl

/-- C8 witness: with an unknown email the trace stops after the user
lookup (the app provider is never called), and on the fixture success
path the trace is the full four-step order. -/
theorem login_sequencing_witness :
    (Login bcrypt0 (specJwt 0) auth0 ctx0 "bob@example.com" "pw" 10).calls
      = [⟨.userLookup, some ctx0⟩]
    ∧ (Login bcrypt0 (specJwt 0) auth0 ctx0 "alice@example.com" "s3cret" 10).calls
      = [⟨.userLookup, some ctx0⟩, ⟨.passCompare, none⟩,
         ⟨.appLookup, some ctx0⟩, ⟨.signToken, none⟩] :=
  ⟨(login_sequencing bcrypt0 (specJwt 0) auth0 ctx0 "bob@example.com" "pw" 10).1
      ErrUserNotFound rfl,
   (login_sequencing bcrypt0 (specJwt 0) auth0 ctx0 "alice@example.com" "s3cret" 10).2.2.2
      user0 app0 rfl rfl rfl⟩

/-- C9: `New` stores exactly the injected logger, capability handles and
TTL, and no operation mutates the service state — the receiver after
every `Login`, `RegisterNewUser` and `IsAdmin` call is the construction
state unchanged. -/
theorem auth_state_immutable
    (log : Logger) (us : UserSaver) (up : UserProvider) (ap : AppProvider)
    (ttl : Nat) (bcrypt : Bcrypt) (jwt : Jwt) (a : Auth) (ctx : Ctx)
    (email password : String) (appID : Int) (uid : Int) :
    (New log us up ap ttl).log = log
    ∧ (New log us up ap ttl).userSaver = us
    ∧ (New log us up ap ttl).userProvider = up
    ∧ (New log us up ap ttl).appProvider = ap
    ∧ (New log us up ap ttl).tokenTTL = ttl
    ∧ (Login bcrypt jwt a ctx email password appID).state = a
    ∧ (RegisterNewUser bcrypt a ctx email password).state = a
    ∧ (IsAdmin a ctx uid).state = a := by
  refine ⟨rfl, rfl, rfl, rfl, rfl, ?_, ?_, ?_⟩
  · unfold Login
    cases hu : a.userProvider.FindUser ctx email with
    | error e => simp [hu]
    | ok u =>
      cases hc : bcrypt.CompareHashAndPassword u.PassHash password with
      | some e => simp [hu, hc]
      | none =>
        cases ha : a.appProvider.FindApp ctx appID with
        | error e => simp [hu, hc, ha]
        | ok app =>
          cases hs : jwt.NewToken u app a.tokenTTL with
          | error e => simp [hu, hc, ha, hs]
          | ok tok => simp [hu, hc, ha, hs]
  · unfold RegisterNewUser
    cases hg : bcrypt.GenerateFromPassword password with
    | error e => simp [hg]
    | ok passHash =>
      cases hsv : a.userSaver.SaveUser ctx email passHash with
      | error e => simp [hg, hsv]
      | ok i => simp [hg, hsv]
  · unfold IsAdmin
    cases hck : a.userProvider.CheckAdmin ctx uid with
    | error e => simp [hck]
    | ok b => simp [hck]

/-- C10: whenever an operation returns an error its primary result is
the zero value — `Login` returns the empty token, `RegisterNewUser`
returns user ID 0, `IsAdmin` returns `false`. -/
theorem zero_result_on_error
    (bcrypt : Bcrypt) (jwt : Jwt) (a : Auth) (ctx : Ctx)
    (email password : String) (appID : Int) (uid : Int) :
    ((Login bcrypt jwt a ctx email password appID).err ≠ none →
        (Login bcrypt jwt a ctx email password appID).token = "")
    ∧ ((RegisterNewUser bcrypt a ctx email password).err ≠ none →
        (RegisterNewUser bcrypt a ctx email password).uid = 0)
    ∧ ((IsAdmin a ctx uid).err ≠ none → (IsAdmin a ctx uid).isAdmin = false) := by
  refine ⟨?_, ?_, ?_⟩
  · unfold Login
    cases hu : a.userProvider.FindUser ctx email with
    | error e => intro _; simp [hu]
    | ok u =>
      cases hc : bcrypt.CompareHashAndPassword u.PassHash password with
      | some e => intro _; simp [hu, hc]
      | none =>
        cases ha : a.appProvider.FindApp ctx appID with
        | error e => intro _; simp [hu, hc, ha]
        | ok app =>
          cases hs : jwt.NewToken u app a.tokenTTL with
          | error e => intro _; simp [hu, hc, ha, hs]
          | ok tok => intro h; exact absurd (by simp [hu, hc, ha, hs]) h
  · unfold RegisterNewUser
    cases hg : bcrypt.GenerateFromPassword password with
    | error e => intro _; simp [hg]
    | ok passHash =>
      cases hsv : a.userSaver.SaveUser ctx email passHash with
      | error e => intro _; simp [hg, hsv]
      | ok i => intro h; exact absurd (by simp [hg, hsv]) h
  · unfold IsAdmin
    cases hck : a.userProvider.CheckAdmin ctx uid with
    | error e => intro _; simp [hck]
    | ok b => intro h; exact absurd (by simp [hck]) h

/-- C10 witness: a failed login returns the empty token, a duplicate
registration returns user ID 0, and a failed admin check returns
`false`. -/
theorem zero_result_on_error_witness :
    (Login bcrypt0 (specJwt 0) auth0 ctx0 "alice@example.com" "wrong" 10).token = ""
    ∧ (RegisterNewUser bcrypt0 auth0 ctx0 "alice@example.com" "pw").uid = 0
    ∧ (IsAdmin auth0 ctx0 2).isAdmin = false :=
  ⟨(zero_result_on_error bcrypt0 (specJwt 0) auth0 ctx0
      "alice@example.com" "wrong" 10 2).1 (by decide),
   (zero_result_on_error bcrypt0 (specJwt 0) auth0 ctx0
      "alice@example.com" "pw" 10 2).2.1 (by decide),
   (zero_result_on_error bcrypt0 (specJwt 0) auth0 ctx0
      "x" "y" 10 2).2.2 (by decide)⟩

end SSO
